import Mathlib

/-!
Verification of the ordered-dithering post-effect and the pose-animation loop
of the tfww-online repository.

The GLSL fragment shader and the TypeScript class methods of
src/components/DitheringEffect.ts, and the per-frame animation loop of
src/components/HandModel.tsx, are shallowly embedded below.  GLSL and JS
numbers are modelled as exact rationals; the texture sampler and the
trigonometric functions of the host are abstract function parameters.
-/

namespace Tfww

/-- GLSL mod for floats: mod(x, y) = x - y * floor(x / y). -/
def glslMod (x y : ℚ) : ℚ := x - y * (⌊x / y⌋ : ℚ)

/-- Embeds the if/else chain of the shader function getValue that selects the
4x4 Bayer matrix entry from the cell coordinates (each in 0..3). -/
def bayerValueAt (px py : ℚ) : ℚ :=
  if px = 0 ∧ py = 0 then 0
  else if px = 1 ∧ py = 0 then 8
  else if px = 2 ∧ py = 0 then 2
  else if px = 3 ∧ py = 0 then 10
  else if px = 0 ∧ py = 1 then 12
  else if px = 1 ∧ py = 1 then 4
  else if px = 2 ∧ py = 1 then 14
  else if px = 3 ∧ py = 1 then 6
  else if px = 0 ∧ py = 2 then 3
  else if px = 1 ∧ py = 2 then 11
  else if px = 2 ∧ py = 2 then 1
  else if px = 3 ∧ py = 2 then 9
  else if px = 0 ∧ py = 3 then 15
  else if px = 1 ∧ py = 3 then 7
  else if px = 2 ∧ py = 3 then 13
  else if px = 3 ∧ py = 3 then 5
  else 0

/-- Shader function getValue: pixel = floor(mod(pos / gridSize, 4.0)),
threshold = (bayerValue + 0.5) / 16.0, returns brightness > threshold. -/
def getValue (gridSize brightness : ℚ) (pos : ℚ × ℚ) : Bool :=
  let px : ℚ := (⌊glslMod (pos.1 / gridSize) 4⌋ : ℤ)
  let py : ℚ := (⌊glslMod (pos.2 / gridSize) 4⌋ : ℤ)
  let threshold : ℚ := (bayerValueAt px py + 0.5) / 16
  decide (brightness > threshold)

/-- The 4x4 Bayer matrix exactly as printed in the spec, indexed by
(row = y mod 4, col = x mod 4).  This definition follows the words of the
spec and is compared against the shader embedding above. -/
def specBayerMatrix (row col : ℤ) : ℚ :=
  if row = 0 then (if col = 0 then 0 else if col = 1 then 8 else if col = 2 then 2 else 10)
  else if row = 1 then (if col = 0 then 12 else if col = 1 then 4 else if col = 2 then 14 else 6)
  else if row = 2 then (if col = 0 then 3 else if col = 1 then 11 else if col = 2 then 1 else 9)
  else (if col = 0 then 15 else if col = 1 then 7 else if col = 2 then 13 else 5)

lemma glslMod_intCast_four (i : ℤ) : glslMod ((i : ℤ) : ℚ) 4 = ((i % 4 : ℤ) : ℚ) := by
  have hfloor : ⌊((i : ℤ) : ℚ) / 4⌋ = i / 4 := by
    have h4 : ((4 : ℕ) : ℚ) = (4 : ℚ) := by norm_num
    have := Rat.floor_intCast_div_natCast i 4
    rw [h4] at this
    simpa using this
  rw [glslMod, hfloor]
  have := Int.emod_emod_of_dvd i (dvd_refl 4)
  have hdef : i % 4 = i - 4 * (i / 4) := by
    have := Int.ediv_add_emod i 4
    linarith
  rw [hdef]
  push_cast
  ring

lemma bayerValueAt_spec (a b : ℤ) (ha0 : 0 ≤ a) (ha4 : a < 4) (hb0 : 0 ≤ b) (hb4 : b < 4) :
    bayerValueAt ((a : ℤ) : ℚ) ((b : ℤ) : ℚ) = specBayerMatrix b a := by
  interval_cases a <;> interval_cases b <;> norm_num [bayerValueAt, specBayerMatrix]

/-- C1: for every brightness b, positive grid size g and block-aligned position
(g * i, g * j), the shader decision getValue is true exactly when b is strictly
greater than (M[j mod 4][i mod 4] + 0.5) / 16 with M the exact Bayer matrix of
the spec; cell (0,0) has threshold 0.03125, cell (3,3) has threshold 5.5/16,
and a brightness exactly equal to the threshold yields false. -/
theorem getValue_bayer_threshold (g b : ℚ) (i j : ℤ) (hg : 0 < g) :
    (getValue g b (g * i, g * j) =
      decide ((specBayerMatrix (j % 4) (i % 4) + 0.5) / 16 < b))
    ∧ (specBayerMatrix 0 0 + 0.5) / 16 = 0.03125
    ∧ (specBayerMatrix 3 3 + 0.5) / 16 = 5.5 / 16
    ∧ getValue g ((specBayerMatrix (j % 4) (i % 4) + 0.5) / 16) (g * i, g * j) = false := by
  have hg0 : g ≠ 0 := ne_of_gt hg
  have hdivi : g * (i : ℚ) / g = (i : ℚ) := by field_simp
  have hdivj : g * (j : ℚ) / g = (j : ℚ) := by field_simp
  have hmodi : (0 : ℤ) ≤ i % 4 := Int.emod_nonneg i (by norm_num)
  have hmodi4 : i % 4 < 4 := Int.emod_lt_of_pos i (by norm_num)
  have hmodj : (0 : ℤ) ≤ j % 4 := Int.emod_nonneg j (by norm_num)
  have hmodj4 : j % 4 < 4 := Int.emod_lt_of_pos j (by norm_num)
  have hkey : ∀ c : ℚ, getValue g c (g * i, g * j) =
      decide ((specBayerMatrix (j % 4) (i % 4) + 0.5) / 16 < c) := by
    intro c
    unfold getValue
    simp only [hdivi, hdivj, glslMod_intCast_four, Int.floor_intCast]
    rw [bayerValueAt_spec (i % 4) (j % 4) hmodi hmodi4 hmodj hmodj4]
  refine ⟨hkey b, by norm_num [specBayerMatrix], by norm_num [specBayerMatrix], ?_⟩
  rw [hkey]
  simp

/-- Witness for C1 at g = 1, b = 1, i = j = 0: the decision at cell (0,0) with
brightness 1 is true since 1 is above the threshold 0.03125. -/
theorem getValue_bayer_threshold_witness :
    (0 : ℚ) < 1 ∧ getValue 1 1 ((1 : ℚ) * ((0 : ℤ) : ℚ), (1 : ℚ) * ((0 : ℤ) : ℚ)) =
      decide ((specBayerMatrix ((0 : ℤ) % 4) ((0 : ℤ) % 4) + 0.5) / 16 < (1 : ℚ)) :=
  ⟨by norm_num, (getValue_bayer_threshold 1 1 0 0 (by norm_num)).1⟩

/-- An RGBA pixel, channels as exact rationals (GLSL floats). -/
structure RGBA where
  r : ℚ
  g : ℚ
  b : ℚ
  a : ℚ
deriving DecidableEq, Repr

/-- Luminance as in the shader: dot(rgb, vec3(0.299, 0.587, 0.114)). -/
def luminanceOf (c : RGBA) : ℚ := c.r * 0.299 + c.g * 0.587 + c.b * 0.114

/-- State of the uniforms held by a DitheringEffect instance. -/
structure DitherConfig where
  gridSize : ℚ
  pixelSizeRatio : ℚ
  grayscaleOnly : Bool
  ditheringEnabled : Bool
  invertColor : Bool
  useCustomLightColor : Bool
  colorDark : ℚ × ℚ × ℚ
  colorLight : ℚ × ℚ × ℚ
  resolution : ℚ × ℚ
deriving DecidableEq, Repr

/-- The optional fields accepted by the DitheringEffect constructor. -/
structure DitherOptions where
  gridSize : Option ℚ
  pixelSizeRatio : Option ℚ
  grayscaleOnly : Option Bool
  ditheringEnabled : Option Bool
  invertColor : Option Bool
  colorDark : Option (ℚ × ℚ × ℚ)
  colorLight : Option (ℚ × ℚ × ℚ)
deriving Repr

/-- The DitheringEffect constructor: each uniform takes the option value when
given, else its default; useCustomLightColor is options.colorLight != null;
resolution starts from the window dimensions. -/
def mkDitheringEffect (o : DitherOptions) (winW winH : ℚ) : DitherConfig where
  gridSize := o.gridSize.getD 4
  pixelSizeRatio := o.pixelSizeRatio.getD 1
  grayscaleOnly := o.grayscaleOnly.getD false
  ditheringEnabled := o.ditheringEnabled.getD true
  invertColor := o.invertColor.getD false
  useCustomLightColor := o.colorLight.isSome
  colorDark := o.colorDark.getD (0, 0, 0)
  colorLight := o.colorLight.getD (1, 1, 1)
  resolution := (winW, winH)

/-- setGridSize: stores Math.max(1, Math.min(20, size)). -/
def setGridSize (c : DitherConfig) (size : ℚ) : DitherConfig :=
  { c with gridSize := max 1 (min 20 size) }

/-- setPixelSizeRatio: stores Math.max(1, Math.min(10, ratio)). -/
def setPixelSizeRatio (c : DitherConfig) (ratio : ℚ) : DitherConfig :=
  { c with pixelSizeRatio := max 1 (min 10 ratio) }

def setGrayscaleOnly (c : DitherConfig) (grayscale : Bool) : DitherConfig :=
  { c with grayscaleOnly := grayscale }

def setDitheringEnabled (c : DitherConfig) (enabled : Bool) : DitherConfig :=
  { c with ditheringEnabled := enabled }

def setInvertColor (c : DitherConfig) (invert : Bool) : DitherConfig :=
  { c with invertColor := invert }

def setResolution (c : DitherConfig) (width height : ℚ) : DitherConfig :=
  { c with resolution := (width, height) }

def setColorDark (c : DitherConfig) (rgb : ℚ × ℚ × ℚ) : DitherConfig :=
  { c with colorDark := rgb }

/-- setColorLight: useCustomLightColor := rgb != null, and the colorLight
uniform is overwritten only when rgb is non-null. -/
def setColorLight (c : DitherConfig) (rgb : Option (ℚ × ℚ × ℚ)) : DitherConfig :=
  { c with useCustomLightColor := rgb.isSome
           colorLight := rgb.getD c.colorLight }

def setColors (c : DitherConfig) (dark : ℚ × ℚ × ℚ) (light : Option (ℚ × ℚ × ℚ)) :
    DitherConfig :=
  setColorLight (setColorDark c dark) light

/-- getColorLight: null when useCustomLightColor is false, else the stored
colorLight uniform. -/
def getColorLight (c : DitherConfig) : Option (ℚ × ℚ × ℚ) :=
  if c.useCustomLightColor then some c.colorLight else none

/-- One call to one of the public setters, used to model arbitrary setter
sequences. -/
inductive ConfigCall
  | grid (q : ℚ)
  | ratio (q : ℚ)
  | gray (b : Bool)
  | enabled (b : Bool)
  | invert (b : Bool)
  | res (w h : ℚ)
  | dark (rgb : ℚ × ℚ × ℚ)
  | light (rgb : Option (ℚ × ℚ × ℚ))

def applyCall (c : DitherConfig) : ConfigCall → DitherConfig
  | .grid q => setGridSize c q
  | .ratio q => setPixelSizeRatio c q
  | .gray b => setGrayscaleOnly c b
  | .enabled b => setDitheringEnabled c b
  | .invert b => setInvertColor c b
  | .res w h => setResolution c w h
  | .dark rgb => setColorDark c rgb
  | .light rgb => setColorLight c rgb

def applyCalls (c : DitherConfig) : List ConfigCall → DitherConfig
  | [] => c
  | k :: ks => applyCalls (applyCall c k) ks

/-- Shader mainImage, pixelation step: fragCoord = uv * resolution,
pixelSize = gridSize * pixelSizeRatio,
pixelatedCoord = floor(fragCoord / pixelSize) * pixelSize. -/
def pixelatedCoordOf (c : DitherConfig) (uv : ℚ × ℚ) : ℚ × ℚ :=
  let fragCoord : ℚ × ℚ := (uv.1 * c.resolution.1, uv.2 * c.resolution.2)
  let pixelSize : ℚ := c.gridSize * c.pixelSizeRatio
  ((⌊fragCoord.1 / pixelSize⌋ : ℤ) * pixelSize, (⌊fragCoord.2 / pixelSize⌋ : ℤ) * pixelSize)

/-- pixelatedUV = pixelatedCoord / resolution. -/
def pixelatedUVOf (c : DitherConfig) (uv : ℚ × ℚ) : ℚ × ℚ :=
  ((pixelatedCoordOf c uv).1 / c.resolution.1, (pixelatedCoordOf c uv).2 / c.resolution.2)

/-- Shader mainImage.  The input buffer is the abstract sampler tex; inputColor
is the incoming fragment, uv its normalized coordinate. -/
def mainImage (c : DitherConfig) (tex : ℚ × ℚ → RGBA) (inputColor : RGBA) (uv : ℚ × ℚ) :
    RGBA :=
  if ¬ c.ditheringEnabled then inputColor
  else if inputColor.a < 0.2 then ⟨0, 0, 0, 0⟩
  else
    let baseColor := tex (pixelatedUVOf c uv)
    if baseColor.a < 0.2 then ⟨0, 0, 0, 0⟩
    else
      let luminance := luminanceOf baseColor
      let color : ℚ × ℚ × ℚ :=
        if c.grayscaleOnly then (luminance, luminance, luminance)
        else (baseColor.r, baseColor.g, baseColor.b)
      let ditherValue := getValue c.gridSize luminance (pixelatedCoordOf c uv)
      let lightColor := if c.useCustomLightColor then c.colorLight else color
      let finalColor := if ditherValue then lightColor else c.colorDark
      let inverted :=
        if c.invertColor then (1 - finalColor.1, 1 - finalColor.2.1, 1 - finalColor.2.2)
        else finalColor
      ⟨inverted.1, inverted.2.1, inverted.2.2, baseColor.a⟩

/-- Default-constructed effect configuration at an 800 x 600 window. -/
def cfgW : DitherConfig :=
  mkDitheringEffect ⟨none, none, none, none, none, none, none⟩ 800 600

/-- Sampler returning opaque white everywhere. -/
def texWhite : ℚ × ℚ → RGBA := fun _ => ⟨1, 1, 1, 1⟩

/-- Sampler returning a fully transparent pixel everywhere. -/
def texClear : ℚ × ℚ → RGBA := fun _ => ⟨1, 1, 1, 0⟩

/-- C3 counterexample: the constructor does not clamp; constructing with
gridSize 999 and pixelSizeRatio 999 stores both values unclamped, violating
the claimed ranges immediately after construction. -/
theorem dither_construct_unclamped_cex :
    (mkDitheringEffect ⟨some 999, some 999, none, none, none, none, none⟩ 800 600).gridSize
      = 999
    ∧ ¬ ((999 : ℚ) ≤ 20)
    ∧ (mkDitheringEffect ⟨some 999, some 999, none, none, none, none, none⟩
        800 600).pixelSizeRatio = 999 :=
  ⟨rfl, by norm_num, rfl⟩

lemma applyCalls_range (c : DitherConfig) (ks : List ConfigCall)
    (h : 1 ≤ c.gridSize ∧ c.gridSize ≤ 20 ∧ 1 ≤ c.pixelSizeRatio ∧ c.pixelSizeRatio ≤ 10) :
    1 ≤ (applyCalls c ks).gridSize ∧ (applyCalls c ks).gridSize ≤ 20
    ∧ 1 ≤ (applyCalls c ks).pixelSizeRatio ∧ (applyCalls c ks).pixelSizeRatio ≤ 10 := by
  induction ks generalizing c with
  | nil => exact h
  | cons k ks ih =>
    show 1 ≤ (applyCalls (applyCall c k) ks).gridSize ∧ _
    apply ih
    obtain ⟨h1, h2, h3, h4⟩ := h
    cases k with
    | grid q => exact ⟨le_max_left _ _, max_le (by norm_num) (min_le_left _ _), h3, h4⟩
    | ratio q => exact ⟨h1, h2, le_max_left _ _, max_le (by norm_num) (min_le_left _ _)⟩
    | gray b => exact ⟨h1, h2, h3, h4⟩
    | enabled b => exact ⟨h1, h2, h3, h4⟩
    | invert b => exact ⟨h1, h2, h3, h4⟩
    | res w hh => exact ⟨h1, h2, h3, h4⟩
    | dark rgb => exact ⟨h1, h2, h3, h4⟩
    | light rgb => exact ⟨h1, h2, h3, h4⟩

/-- C3 amended: the setters clamp (setGridSize to [1,20], setPixelSizeRatio to
[1,10], with setGridSize(-5) giving 1 and setGridSize(999) giving 20 and the
same pattern for setPixelSizeRatio at 1 and 10), and from any configuration
already in range (in particular the one built with default options, which
stores 4 and 1) every sequence of setter calls with arbitrary rational
arguments keeps both values in range; the constructor itself, however, stores
its option arguments unclamped. -/
theorem dither_range_invariant (c : DitherConfig) (ks : List ConfigCall)
    (hg1 : 1 ≤ c.gridSize) (hg2 : c.gridSize ≤ 20)
    (hr1 : 1 ≤ c.pixelSizeRatio) (hr2 : c.pixelSizeRatio ≤ 10) :
    (1 ≤ (applyCalls c ks).gridSize ∧ (applyCalls c ks).gridSize ≤ 20
      ∧ 1 ≤ (applyCalls c ks).pixelSizeRatio ∧ (applyCalls c ks).pixelSizeRatio ≤ 10)
    ∧ (setGridSize c (-5)).gridSize = 1 ∧ (setGridSize c 999).gridSize = 20
    ∧ (setPixelSizeRatio c (-5)).pixelSizeRatio = 1
    ∧ (setPixelSizeRatio c 999).pixelSizeRatio = 10
    ∧ (∀ w h : ℚ,
        (mkDitheringEffect ⟨none, none, none, none, none, none, none⟩ w h).gridSize = 4
        ∧ (mkDitheringEffect ⟨none, none, none, none, none, none, none⟩ w h).pixelSizeRatio
            = 1) := by
  refine ⟨applyCalls_range c ks ⟨hg1, hg2, hr1, hr2⟩, ?_, ?_, ?_, ?_, fun w h => ⟨rfl, rfl⟩⟩
  · show max 1 (min 20 (-5 : ℚ)) = 1
    norm_num
  · show max 1 (min 20 (999 : ℚ)) = 20
    norm_num
  · show max 1 (min 10 (-5 : ℚ)) = 1
    norm_num
  · show max 1 (min 10 (999 : ℚ)) = 10
    norm_num

/-- Witness for the amended C3 at the default configuration and the call
sequence [setGridSize 999, setPixelSizeRatio -5]. -/
theorem dither_range_invariant_witness :
    1 ≤ (applyCalls cfgW [ConfigCall.grid 999, ConfigCall.ratio (-5)]).gridSize
    ∧ (applyCalls cfgW [ConfigCall.grid 999, ConfigCall.ratio (-5)]).gridSize ≤ 20
    ∧ 1 ≤ (applyCalls cfgW [ConfigCall.grid 999, ConfigCall.ratio (-5)]).pixelSizeRatio
    ∧ (applyCalls cfgW [ConfigCall.grid 999, ConfigCall.ratio (-5)]).pixelSizeRatio ≤ 10 :=
  (dither_range_invariant cfgW [ConfigCall.grid 999, ConfigCall.ratio (-5)]
    (by norm_num [cfgW, mkDitheringEffect]) (by norm_num [cfgW, mkDitheringEffect])
    (by norm_num [cfgW, mkDitheringEffect]) (by norm_num [cfgW, mkDitheringEffect])).1

/-- C7: with dithering enabled, a pixel whose input alpha is below 0.2 is
output fully transparent, and likewise a pixel whose block-aligned sampled
color has alpha below 0.2, for every configuration of the remaining fields. -/
theorem alpha_gate_transparent (c : DitherConfig) (tex : ℚ × ℚ → RGBA) (input : RGBA)
    (uv : ℚ × ℚ) (hen : c.ditheringEnabled = true) :
    (input.a < 0.2 → mainImage c tex input uv = ⟨0, 0, 0, 0⟩)
    ∧ (¬ input.a < 0.2 → (tex (pixelatedUVOf c uv)).a < 0.2 →
        mainImage c tex input uv = ⟨0, 0, 0, 0⟩) := by
  constructor
  · intro h
    simp [mainImage, hen, h]
  · intro h1 h2
    simp [mainImage, hen, h1, h2]

/-- Witness for C7: a transparent input pixel under the default configuration,
and an opaque input whose sampled block is transparent, both map to
(0,0,0,0). -/
theorem alpha_gate_transparent_witness :
    mainImage cfgW texWhite ⟨1, 1, 1, 0⟩ (0, 0) = ⟨0, 0, 0, 0⟩
    ∧ mainImage cfgW texClear ⟨1, 1, 1, 1⟩ (0, 0) = ⟨0, 0, 0, 0⟩ :=
  ⟨(alpha_gate_transparent cfgW texWhite ⟨1, 1, 1, 0⟩ (0, 0) rfl).1 (by norm_num),
   (alpha_gate_transparent cfgW texClear ⟨1, 1, 1, 1⟩ (0, 0) rfl).2 (by norm_num)
     (by norm_num [texClear])⟩

/-- C8: with the enabled flag false the dithering stage is the identity on the
input pixel, whatever the other configuration fields, the sampler and the
coordinate. -/
theorem disabled_passthrough (c : DitherConfig) (tex : ℚ × ℚ → RGBA) (input : RGBA)
    (uv : ℚ × ℚ) (h : c.ditheringEnabled = false) :
    mainImage c tex input uv = input := by
  simp [mainImage, h]

/-- Witness for C8: a red pixel passes through unchanged when the effect is
disabled. -/
theorem disabled_passthrough_witness :
    mainImage (setDitheringEnabled cfgW false) texWhite ⟨1, 0, 0, 1⟩ (0, 0) = ⟨1, 0, 0, 1⟩ :=
  disabled_passthrough (setDitheringEnabled cfgW false) texWhite ⟨1, 0, 0, 1⟩ (0, 0) rfl

/-- C5: after setColorLight (0.5,0.5,0.5) followed by setColorLight null,
useCustomLightColor is false again; in every state useCustomLightColor equals
(argument of the last setColorLight) != null, the constructor makes it
options.colorLight != null, and getColorLight observes null exactly when the
flag is false; and a subsequently processed lit pixel is output with the
(possibly grayscaled, possibly inverted) sampled scene color, not the stale
(0.5,0.5,0.5). -/
theorem colorLight_clear_restores_scene (c : DitherConfig) (tex : ℚ × ℚ → RGBA)
    (input : RGBA) (uv : ℚ × ℚ)
    (hen : c.ditheringEnabled = true)
    (hin : ¬ input.a < 0.2)
    (hbase : ¬ (tex (pixelatedUVOf c uv)).a < 0.2)
    (hlit : getValue c.gridSize (luminanceOf (tex (pixelatedUVOf c uv)))
      (pixelatedCoordOf c uv) = true) :
    ((setColorLight (setColorLight c (some (0.5, 0.5, 0.5))) none).useCustomLightColor
        = false)
    ∧ (∀ c0 : DitherConfig, ∀ rgb : Option (ℚ × ℚ × ℚ),
        (setColorLight c0 rgb).useCustomLightColor = rgb.isSome)
    ∧ (∀ o : DitherOptions, ∀ w h : ℚ,
        (mkDitheringEffect o w h).useCustomLightColor = o.colorLight.isSome)
    ∧ (∀ c0 : DitherConfig, getColorLight c0 = none ↔ c0.useCustomLightColor = false)
    ∧ (mainImage (setColorLight (setColorLight c (some (0.5, 0.5, 0.5))) none) tex input uv
        = (let baseColor := tex (pixelatedUVOf c uv)
           let sceneColor : ℚ × ℚ × ℚ :=
             if c.grayscaleOnly then
               (luminanceOf baseColor, luminanceOf baseColor, luminanceOf baseColor)
             else (baseColor.r, baseColor.g, baseColor.b)
           let outColor :=
             if c.invertColor then (1 - sceneColor.1, 1 - sceneColor.2.1, 1 - sceneColor.2.2)
             else sceneColor
           (⟨outColor.1, outColor.2.1, outColor.2.2, baseColor.a⟩ : RGBA))) := by
  refine ⟨rfl, fun c0 rgb => rfl, fun o w h => rfl, ?_, ?_⟩
  · intro c0
    by_cases h : c0.useCustomLightColor <;> simp [getColorLight, h]
  · have hUV : pixelatedUVOf (setColorLight (setColorLight c (some (0.5, 0.5, 0.5))) none) uv
        = pixelatedUVOf c uv := rfl
    have hCo : pixelatedCoordOf (setColorLight (setColorLight c (some (0.5, 0.5, 0.5))) none)
        uv = pixelatedCoordOf c uv := rfl
    have hen2 : (setColorLight (setColorLight c (some (0.5, 0.5, 0.5)))
        none).ditheringEnabled = true := hen
    have hgray : (setColorLight (setColorLight c (some (0.5, 0.5, 0.5)))
        none).grayscaleOnly = c.grayscaleOnly := rfl
    have hinv : (setColorLight (setColorLight c (some (0.5, 0.5, 0.5)))
        none).invertColor = c.invertColor := rfl
    have hgs : (setColorLight (setColorLight c (some (0.5, 0.5, 0.5)))
        none).gridSize = c.gridSize := rfl
    have huse : (setColorLight (setColorLight c (some (0.5, 0.5, 0.5)))
        none).useCustomLightColor = false := rfl
    simp only [mainImage, hUV, hCo, hen2, hgray, hinv, hgs, huse]
    simp [hin, hbase, hlit]

/-- Witness for C5: default configuration, white sampler, opaque white input at
uv (0,0); after set-then-clear the lit pixel comes out as the scene color
(opaque white), not 0.5 gray. -/
theorem colorLight_clear_restores_scene_witness :
    mainImage (setColorLight (setColorLight cfgW (some (0.5, 0.5, 0.5))) none) texWhite
      ⟨1, 1, 1, 1⟩ (0, 0) = ⟨1, 1, 1, 1⟩ := by
  have h := (colorLight_clear_restores_scene cfgW texWhite ⟨1, 1, 1, 1⟩ (0, 0) rfl
    (by norm_num) (by norm_num [texWhite])
    (by norm_num [getValue, glslMod, bayerValueAt, luminanceOf, pixelatedCoordOf,
      pixelatedUVOf, texWhite, cfgW, mkDitheringEffect])).2.2.2.2
  simpa [cfgW, mkDitheringEffect, texWhite, luminanceOf] using h

/-! Embedding of the per-frame animation loop of HandModel.tsx.  The refs the
loop reads and writes become an explicit state record; the refs it only reads
(slider values, base scale) are a constant record; the trigonometric functions
of the host are abstract parameters. -/

def CURSOR_TILT_STRENGTH : ℚ := 0.12
def DRAG_TILT_STRENGTH : ℚ := 0.4
def CURSOR_LERP : ℚ := 0.08
def DRAG_LERP : ℚ := 0.18
def TILT_STRENGTH_LERP : ℚ := 0.12
def FLOAT_AMPLITUDE : ℚ := 0.08
def FLOAT_FREQUENCY : ℚ := 0.003

/-- The shake refs: shakeIntensityRef and isShakingRef. -/
structure ShakeState where
  intensity : ℚ
  isShaking : Bool
deriving DecidableEq, Repr

/-- The click handler: isShakingRef := true, shakeIntensityRef := 1. -/
def shakeClick (_ : ShakeState) : ShakeState := ⟨1, true⟩

/-- The per-frame shake block of animate: while shaking, multiply the
intensity by 0.92; once it falls below 0.01, zero it and stop shaking. -/
def shakeStep (s : ShakeState) : ShakeState :=
  if s.isShaking then
    let i := s.intensity * 0.92
    if i < 0.01 then ⟨0, false⟩ else ⟨i, true⟩
  else s

/-- Mutable per-frame state of the loop: tiltStrengthRef, cursorSmoothedRef,
timeRef and the shake refs. -/
structure AnimState where
  tiltStrength : ℚ
  sm : ℚ × ℚ
  time : ℚ
  shake : ShakeState
deriving DecidableEq, Repr

/-- Refs the loop reads but never writes: the slider positions, fixed z, the
rotation sliders, the scale slider and the base scale of the loaded model. -/
structure SliderState where
  positionXSlider : ℚ
  positionYSlider : ℚ
  posZ : ℚ
  rotSlider : ℚ × ℚ × ℚ
  scaleSlider : ℚ
  baseScale : ℚ
deriving DecidableEq, Repr

/-- Inputs recorded by the event handlers and consumed by one frame, plus the
wall-clock duration of the frame, which the code never reads. -/
structure FrameInput where
  cursor : ℚ × ℚ
  dragging : Bool
  click : Bool
  modelPresent : Bool
  wallClockDt : ℚ
deriving Repr

def cursorLerpOf (dragging : Bool) : ℚ := if dragging then DRAG_LERP else CURSOR_LERP

def tiltTargetOf (dragging : Bool) : ℚ :=
  if dragging then DRAG_TILT_STRENGTH else CURSOR_TILT_STRENGTH

/-- tiltStrengthRef.current += (targetStrength - tiltStrengthRef.current) *
TILT_STRENGTH_LERP. -/
def tiltStrengthStep (dragging : Bool) (s : ℚ) : ℚ :=
  s + (tiltTargetOf dragging - s) * TILT_STRENGTH_LERP

/-- sm.x += (cur.x - sm.x) * cursorLerp, same for y, with cursorLerp chosen by
the drag flag. -/
def smoothCursor (dragging : Bool) (cur sm : ℚ × ℚ) : ℚ × ℚ :=
  (sm.1 + (cur.1 - sm.1) * cursorLerpOf dragging,
   sm.2 + (cur.2 - sm.2) * cursorLerpOf dragging)

/-- The mousemove handler: normalized offset from the viewport center, each
component clamped into [-1, 1] by max(-1, min(1, .)). -/
def onMouseMove (cx cy clientX clientY : ℚ) : ℚ × ℚ :=
  (max (-1) (min 1 ((clientX - cx) / cx)), max (-1) (min 1 ((clientY - cy) / cy)))

/-- The transform written to the model node. -/
structure ModelTransform where
  pos : ℚ × ℚ × ℚ
  rot : ℚ × ℚ × ℚ
  scale : ℚ
deriving DecidableEq, Repr

/-- The transform-write block of animate, evaluated on the already-updated
state of the current frame. -/
def composeTransform (sinQ cosQ : ℚ → ℚ) (sl : SliderState) (s : AnimState) :
    ModelTransform :=
  let sm := s.sm
  let strength := s.tiltStrength
  let tiltX := sm.2 * strength
  let tiltY := sm.1 * strength
  let floatY := sinQ (s.time * FLOAT_FREQUENCY) * FLOAT_AMPLITUDE
  let floatX := cosQ (s.time * FLOAT_FREQUENCY * 0.7) * FLOAT_AMPLITUDE * 0.5
  let floatZ := sinQ (s.time * FLOAT_FREQUENCY * 1.3) * FLOAT_AMPLITUDE * 0.3
  let shakeOff : ℚ × ℚ × ℚ :=
    if s.shake.isShaking = true ∧ 0 < s.shake.intensity then
      let shakeIntensity := s.shake.intensity
      let shakeFrequency : ℚ := 0.3
      let t := s.time
      ((sinQ (t * shakeFrequency * 8) * 0.02 + sinQ (t * shakeFrequency * 13) * 0.015)
          * shakeIntensity,
       (cosQ (t * shakeFrequency * 11) * 0.02 + sinQ (t * shakeFrequency * 17) * 0.015)
          * shakeIntensity,
       (sinQ (t * shakeFrequency * 9) * 0.01 + cosQ (t * shakeFrequency * 15) * 0.01)
          * shakeIntensity)
    else (0, 0, 0)
  { pos := (sl.positionXSlider + floatX + shakeOff.1,
            sl.positionYSlider + floatY + shakeOff.2.1,
            sl.posZ + floatZ + shakeOff.2.2)
    rot := (sl.rotSlider.1 + tiltX + shakeOff.1 * 2,
            sl.rotSlider.2.1 + tiltY + shakeOff.2.1 * 2,
            sl.rotSlider.2.2 + shakeOff.2.2 * 3)
    scale := sl.baseScale * sl.scaleSlider }

/-- One invocation of animate, preceded by the click handler when a click was
recorded since the previous frame.  Returns the new state and the transform
written to the model node, or none when the node does not exist yet. -/
def animateStep (sinQ cosQ : ℚ → ℚ) (sl : SliderState) (inp : FrameInput) (s : AnimState) :
    AnimState × Option ModelTransform :=
  let s0 : AnimState := if inp.click then { s with shake := shakeClick s.shake } else s
  let s1 : AnimState :=
    { tiltStrength := tiltStrengthStep inp.dragging s0.tiltStrength
      sm := smoothCursor inp.dragging inp.cursor s0.sm
      time := s0.time + 16
      shake := shakeStep s0.shake }
  (s1, if inp.modelPresent then some (composeTransform sinQ cosQ sl s1) else none)

/-- Running the loop over a list of recorded frame inputs. -/
def animRun (sinQ cosQ : ℚ → ℚ) (sl : SliderState) :
    List FrameInput → AnimState → AnimState × List (Option ModelTransform)
  | [], s => (s, [])
  | inp :: rest, s =>
    let step := animateStep sinQ cosQ sl inp s
    let next := animRun sinQ cosQ sl rest step.1
    (next.1, step.2 :: next.2)

/-- Two recorded frame inputs that agree on everything the code reads: cursor,
drag flag, click trigger and model presence; the wall-clock duration is free. -/
def sameObservedInput (a b : FrameInput) : Prop :=
  a.cursor = b.cursor ∧ a.dragging = b.dragging ∧ a.click = b.click
    ∧ a.modelPresent = b.modelPresent

lemma shake_iter (n : ℕ) :
    ((0.01 : ℚ) ≤ 0.92 ^ n → shakeStep^[n] ⟨1, true⟩ = ⟨(0.92 : ℚ) ^ n, true⟩)
    ∧ ((0.92 : ℚ) ^ n < 0.01 → shakeStep^[n] ⟨1, true⟩ = ⟨0, false⟩) := by
  induction n with
  | zero =>
    constructor
    · intro _
      simp
    · intro h
      norm_num at h
  | succ n ih =>
    have hpow : (0 : ℚ) ≤ 0.92 ^ n := pow_nonneg (by norm_num) n
    have hdec : (0.92 : ℚ) ^ (n + 1) ≤ 0.92 ^ n := by
      rw [pow_succ]
      nlinarith
    constructor
    · intro h
      have hn : (0.01 : ℚ) ≤ 0.92 ^ n := le_trans h hdec
      have hi : ¬ ((0.92 : ℚ) ^ n * 0.92 < 0.01) := by
        rw [← pow_succ]
        exact not_lt.mpr h
      rw [Function.iterate_succ_apply', ih.1 hn]
      simp [shakeStep, hi]
      rw [← pow_succ]
    · intro h
      by_cases hn : (0.92 : ℚ) ^ n < 0.01
      · rw [Function.iterate_succ_apply', ih.2 hn]
        simp [shakeStep]
      · have hn2 : (0.01 : ℚ) ≤ 0.92 ^ n := not_lt.mp hn
        have hi : (0.92 : ℚ) ^ n * 0.92 < 0.01 := by
          rw [← pow_succ]
          exact h
        rw [Function.iterate_succ_apply', ih.1 hn2]
        simp [shakeStep, hi]

/-- C2: a click sets intensity 1 and the shaking flag; n frames later the
intensity is 0.92 to the n while that is at least the epsilon 0.01, the flag
still true; at the first frame where it falls below 0.01 the state becomes
intensity 0 with the flag false; and a non-shaking state is a fixed point of
the per-frame update, so the flag never returns without a new click. -/
theorem shake_decay_spec (s : ShakeState) (n : ℕ) :
    shakeClick s = ⟨1, true⟩
    ∧ ((0.01 : ℚ) ≤ 0.92 ^ n → shakeStep^[n] (shakeClick s) = ⟨(0.92 : ℚ) ^ n, true⟩)
    ∧ ((0.92 : ℚ) ^ n < 0.01 → shakeStep^[n] (shakeClick s) = ⟨0, false⟩)
    ∧ (∀ s0 : ShakeState, s0.isShaking = false → shakeStep s0 = s0) := by
  refine ⟨rfl, (shake_iter n).1, (shake_iter n).2, ?_⟩
  intro s0 h0
  simp [shakeStep, h0]

/-- Witness for C2: one frame after a click the intensity is exactly 0.92 and
the flag still true; 56 frames after a click the state is intensity 0, flag
false, since 0.92 to the 56 is below 0.01. -/
theorem shake_decay_spec_witness :
    shakeStep^[1] (shakeClick ⟨0, false⟩) = ⟨(0.92 : ℚ) ^ 1, true⟩
    ∧ shakeStep^[56] (shakeClick ⟨0, false⟩) = ⟨0, false⟩ :=
  ⟨(shake_decay_spec ⟨0, false⟩ 1).2.1 (by norm_num),
   (shake_decay_spec ⟨0, false⟩ 56).2.2.1 (by norm_num)⟩

lemma animateStep_wallclock_free (sinQ cosQ : ℚ → ℚ) (sl : SliderState)
    (a b : FrameInput) (s : AnimState) (h : sameObservedInput a b) :
    animateStep sinQ cosQ sl a s = animateStep sinQ cosQ sl b s := by
  obtain ⟨h1, h2, h3, h4⟩ := h
  simp only [animateStep, h1, h2, h3, h4]

lemma animRun_det (sinQ cosQ : ℚ → ℚ) (sl : SliderState) (ins1 ins2 : List FrameInput)
    (h : List.Forall₂ sameObservedInput ins1 ins2) :
    ∀ s : AnimState, animRun sinQ cosQ sl ins1 s = animRun sinQ cosQ sl ins2 s := by
  induction h with
  | nil =>
    intro s
    rfl
  | cons hab htail ih =>
    intro s
    simp only [animRun]
    rw [animateStep_wallclock_free sinQ cosQ sl _ _ s hab, ih]

lemma animRun_time (sinQ cosQ : ℚ → ℚ) (sl : SliderState) (ins : List FrameInput) :
    ∀ s : AnimState, (animRun sinQ cosQ sl ins s).1.time = s.time + 16 * ins.length := by
  induction ins with
  | nil =>
    intro s
    simp [animRun]
  | cons inp rest ih =>
    intro s
    have hstep : (animateStep sinQ cosQ sl inp s).1.time = s.time + 16 := by
      by_cases hc : inp.click = true <;> simp [animateStep, hc]
    simp only [animRun]
    rw [ih, hstep, List.length_cons]
    push_cast
    ring

/-- C4: the loop is deterministic in the recorded inputs: two runs fed frame
sequences that agree on cursor, drag flag, click trigger and model presence
produce identical final states and identical transform sequences, whatever the
wall-clock durations of the frames, and the elapsed-time accumulator after n
frames is exactly the start time plus 16 n milliseconds. -/
theorem animate_deterministic (sinQ cosQ : ℚ → ℚ) (sl : SliderState) (s : AnimState)
    (ins1 ins2 : List FrameInput) (h : List.Forall₂ sameObservedInput ins1 ins2) :
    animRun sinQ cosQ sl ins1 s = animRun sinQ cosQ sl ins2 s
    ∧ (animRun sinQ cosQ sl ins1 s).1.time = s.time + 16 * ins1.length :=
  ⟨animRun_det sinQ cosQ sl ins1 ins2 h s, animRun_time sinQ cosQ sl ins1 s⟩

def zeroFun : ℚ → ℚ := fun _ => 0

def sl0 : SliderState := ⟨0.55, -0.6, 0.65, (0, 0, 0), 0.9, 1⟩

def animS0 : AnimState := ⟨CURSOR_TILT_STRENGTH, (0, 0), 0, ⟨0, false⟩⟩

/-- Witness for C4: two one-frame runs whose recorded inputs differ only in
wall-clock duration (16 ms against 33 ms) coincide, and the accumulator
advanced by exactly 16. -/
theorem animate_deterministic_witness :
    animRun zeroFun zeroFun sl0 [⟨(0, 0), false, false, true, 16⟩] animS0
      = animRun zeroFun zeroFun sl0 [⟨(0, 0), false, false, true, 33⟩] animS0
    ∧ (animRun zeroFun zeroFun sl0 [⟨(0, 0), false, false, true, 16⟩] animS0).1.time
      = animS0.time + 16 * [(⟨(0, 0), false, false, true, 16⟩ : FrameInput)].length :=
  animate_deterministic zeroFun zeroFun sl0 animS0 _ _
    (List.Forall₂.cons ⟨rfl, rfl, rfl, rfl⟩ List.Forall₂.nil)

/-- C6 counterexample: at current strength 0, one update while dragging moves
by 0.4 times the smoothing factor and one idle update moves by 0.12 times the
smoothing factor; the two implied factors are both 0.12, so the factor used
while dragging is not larger than the idle one. -/
theorem tilt_lerp_same_cex :
    ¬ (tiltStrengthStep true 0 / DRAG_TILT_STRENGTH
        > tiltStrengthStep false 0 / CURSOR_TILT_STRENGTH) := by
  norm_num [tiltStrengthStep, tiltTargetOf, DRAG_TILT_STRENGTH, CURSOR_TILT_STRENGTH,
    TILT_STRENGTH_LERP]

/-- C6 amended: every frame the tilt strength moves toward its target (0.4
while dragging, 0.12 idle) by exponential smoothing with the single fixed
factor 0.12 in both modes, contracting the gap to the target by 1 - 0.12 per
frame; the constant that is larger while dragging is the cursor smoothing
factor (0.18 against 0.08), not the strength smoothing factor. -/
theorem tilt_strength_smoothing (d : Bool) (s : ℚ) :
    tiltStrengthStep d s = s + (tiltTargetOf d - s) * TILT_STRENGTH_LERP
    ∧ tiltTargetOf true = DRAG_TILT_STRENGTH
    ∧ tiltTargetOf false = CURSOR_TILT_STRENGTH
    ∧ CURSOR_TILT_STRENGTH < DRAG_TILT_STRENGTH
    ∧ tiltStrengthStep d s - tiltTargetOf d
        = (1 - TILT_STRENGTH_LERP) * (s - tiltTargetOf d)
    ∧ TILT_STRENGTH_LERP = 0.12
    ∧ (0 : ℚ) < TILT_STRENGTH_LERP ∧ TILT_STRENGTH_LERP < 1
    ∧ cursorLerpOf false < cursorLerpOf true := by
  refine ⟨rfl, rfl, rfl,
    by norm_num [CURSOR_TILT_STRENGTH, DRAG_TILT_STRENGTH], ?_, rfl,
    by norm_num [TILT_STRENGTH_LERP], by norm_num [TILT_STRENGTH_LERP],
    by norm_num [cursorLerpOf, CURSOR_LERP, DRAG_LERP]⟩
  simp only [tiltStrengthStep]
  ring

/-- C9: when the model node does not exist the frame writes no transform, yet
the state advances exactly as it would with the node present: time gains 16,
the shake, cursor smoothing and tilt strength updates all run; and the first
following frame with the node present writes a transform again. -/
theorem model_missing_skips_write (sinQ cosQ : ℚ → ℚ) (sl : SliderState)
    (inp inp2 : FrameInput) (s : AnimState)
    (h : inp.modelPresent = false) (h2 : inp2.modelPresent = true) :
    ((animateStep sinQ cosQ sl inp s).2 = none)
    ∧ ((animateStep sinQ cosQ sl inp s).1
        = (animateStep sinQ cosQ sl { inp with modelPresent := true } s).1)
    ∧ ((animateStep sinQ cosQ sl inp s).1.time = s.time + 16)
    ∧ ((animateStep sinQ cosQ sl inp s).1.shake
        = shakeStep (if inp.click then shakeClick s.shake else s.shake))
    ∧ ((animateStep sinQ cosQ sl inp s).1.sm = smoothCursor inp.dragging inp.cursor s.sm)
    ∧ ((animateStep sinQ cosQ sl inp s).1.tiltStrength
        = tiltStrengthStep inp.dragging s.tiltStrength)
    ∧ ((animateStep sinQ cosQ sl inp2 (animateStep sinQ cosQ sl inp s).1).2.isSome
        = true) := by
  refine ⟨by simp [animateStep, h], rfl, ?_, ?_, ?_, ?_, by simp [animateStep, h2]⟩ <;>
    by_cases hc : inp.click = true <;> simp [animateStep, hc]

/-- Witness for C9: a frame with the node absent writes nothing and the next
frame with the node present writes a transform. -/
theorem model_missing_skips_write_witness :
    (animateStep zeroFun zeroFun sl0 ⟨(0, 0), false, false, false, 16⟩ animS0).2 = none
    ∧ (animateStep zeroFun zeroFun sl0 ⟨(0, 0), false, false, true, 16⟩
        (animateStep zeroFun zeroFun sl0 ⟨(0, 0), false, false, false, 16⟩
          animS0).1).2.isSome = true :=
  ⟨(model_missing_skips_write zeroFun zeroFun sl0 ⟨(0, 0), false, false, false, 16⟩
      ⟨(0, 0), false, false, true, 16⟩ animS0 rfl rfl).1,
   (model_missing_skips_write zeroFun zeroFun sl0 ⟨(0, 0), false, false, false, 16⟩
      ⟨(0, 0), false, false, true, 16⟩ animS0 rfl rfl).2.2.2.2.2.2⟩

/-- C10: the mousemove handler clamps every raw sample into the unit square,
and the per-frame smoothing step is a convex combination with factor 0.18 or
0.08, so a smoothed cursor inside the unit square stays inside it. -/
theorem cursor_stays_in_unit_square (cx cy clientX clientY : ℚ) (d : Bool)
    (cur sm : ℚ × ℚ)
    (hc1 : -1 ≤ cur.1) (hc2 : cur.1 ≤ 1) (hc3 : -1 ≤ cur.2) (hc4 : cur.2 ≤ 1)
    (hs1 : -1 ≤ sm.1) (hs2 : sm.1 ≤ 1) (hs3 : -1 ≤ sm.2) (hs4 : sm.2 ≤ 1) :
    (-1 ≤ (onMouseMove cx cy clientX clientY).1
      ∧ (onMouseMove cx cy clientX clientY).1 ≤ 1
      ∧ -1 ≤ (onMouseMove cx cy clientX clientY).2
      ∧ (onMouseMove cx cy clientX clientY).2 ≤ 1)
    ∧ (-1 ≤ (smoothCursor d cur sm).1 ∧ (smoothCursor d cur sm).1 ≤ 1
      ∧ -1 ≤ (smoothCursor d cur sm).2 ∧ (smoothCursor d cur sm).2 ≤ 1) := by
  constructor
  · exact ⟨le_max_left _ _, max_le (by norm_num) (min_le_left _ _),
      le_max_left _ _, max_le (by norm_num) (min_le_left _ _)⟩
  · have h18 : DRAG_LERP = 9 / 50 := by norm_num [DRAG_LERP]
    have h08 : CURSOR_LERP = 2 / 25 := by norm_num [CURSOR_LERP]
    cases d <;>
      simp only [smoothCursor, cursorLerpOf, if_true, if_false, Bool.false_eq_true,
        Bool.true_eq_false, h18, h08, ite_true, ite_false] <;>
      exact ⟨by linarith, by linarith, by linarith, by linarith⟩

/-- Witness for C10: a far-away pointer sample at an 800 x 600 window clamps
into the square, and one drag-mode smoothing step from the center toward the
right edge stays inside the square. -/
theorem cursor_stays_in_unit_square_witness :
    (-1 ≤ (onMouseMove 400 300 1000 0).1 ∧ (onMouseMove 400 300 1000 0).1 ≤ 1
      ∧ -1 ≤ (onMouseMove 400 300 1000 0).2 ∧ (onMouseMove 400 300 1000 0).2 ≤ 1)
    ∧ (-1 ≤ (smoothCursor true (1, 0) (0, 0)).1 ∧ (smoothCursor true (1, 0) (0, 0)).1 ≤ 1
      ∧ -1 ≤ (smoothCursor true (1, 0) (0, 0)).2
      ∧ (smoothCursor true (1, 0) (0, 0)).2 ≤ 1) :=
  cursor_stays_in_unit_square 400 300 1000 0 true (1, 0) (0, 0)
    (by norm_num) (by norm_num) (by norm_num) (by norm_num)
    (by norm_num) (by norm_num) (by norm_num) (by norm_num)

end Tfww
